import Mathlib

/-!
Verification of the chainswarm-patterns-subnet validator core.

Shallow embedding of the pattern-integrity and incentive-scoring engine:
src/core/validator/pattern_processing.py and src/core/validator/anti_gaming.py.

Modelling conventions:
* Python floats are modelled as exact rationals; Unix timestamps as integers;
  counters as naturals.
* Python dicts used as registries are modelled as association lists keyed by
  strings (insertion replaces the binding for an existing key).
* A SHA-256 digest of a JSON dump of a normalized tuple list is determined,
  injectively for the inputs of interest, by the tuple list itself, so hash
  values are modelled by the normalized sorted tuple lists fed to the hash.
* A Python ZeroDivisionError is modelled by returning an error value of type
  Except Unit.
-/

/-- Amount of a transaction; a Decimal in the source. Its decimal string
form, used in hash inputs, determines and is determined by the value. -/
abbrev Amount := ℚ

/-- GraphNode from src/core/protocol.py (metadata dict omitted: never read
by the code under verification). -/
structure GraphNode where
  address : String
  node_type : String
deriving DecidableEq, Repr

/-- GraphEdge from src/core/protocol.py (metadata dict omitted: never read
by the code under verification). -/
structure GraphEdge where
  from_address : String
  to_address : String
  amount : Amount
  transaction_hash : String
  timestamp : Int
deriving DecidableEq, Repr

/-- TransactionGraph from src/core/protocol.py. -/
structure TransactionGraph where
  nodes : List GraphNode
  edges : List GraphEdge
deriving DecidableEq, Repr

/-- DetectedPattern from src/core/protocol.py. -/
structure DetectedPattern where
  transaction_graph : TransactionGraph
  blockchain : String
  asset_symbol : String
  detection_timestamp : Int
deriving DecidableEq, Repr

/-- ClassifiedPattern from src/core/validator/pattern_processing.py.
The fields read by the code under verification are kept; identifier and
provenance metadata (pattern id, hashes, hotkeys, timestamps, error lists)
never enter any verified computation and are omitted. -/
structure ClassifiedPattern where
  detected_pattern : DetectedPattern
  confidence_score : ℚ
  complexity_score : ℚ
  uniqueness_score : ℚ
  volume_significance : ℚ
  recency_score : ℚ
  verification_status : String
deriving DecidableEq, Repr

/-- ClassifiedPattern.get_final_score (pattern_processing.py lines 57-77):
weighted sum of the five component scores, clamped to [0, 1]. -/
def get_final_score (p : ClassifiedPattern) : ℚ :=
  let score :=
    p.confidence_score * (25/100) +
    p.complexity_score * (30/100) +
    p.recency_score * (20/100) +
    p.volume_significance * (15/100) +
    p.uniqueness_score * (10/100)
  min 1 (max 0 score)

/-- MinerReputation from src/core/validator/pattern_processing.py. -/
structure MinerReputation where
  miner_hotkey : String
  total_patterns_submitted : ℕ := 0
  verified_patterns : ℕ := 0
  rejected_patterns : ℕ := 0
  average_pattern_score : ℚ := 0
  average_complexity_score : ℚ := 0
  verification_success_rate : ℚ := 0
  historical_pattern_ratio : ℚ := 1/2
  duplicate_submission_count : ℕ := 0
  gaming_penalty_score : ℚ := 0
  base_reputation_score : ℚ := 1
  reputation_multiplier : ℚ := 1
  first_submission_timestamp : Int := 0
  last_submission_timestamp : Int := 0
  reputation_update_timestamp : Int := 0
deriving DecidableEq, Repr

/-- MinerReputation._update_running_average: exponential moving average with
alpha = 0.1. -/
def update_running_average (current_value new_value : ℚ) : ℚ :=
  (1/10) * new_value + (1 - 1/10) * current_value

/-- MinerReputation._calculate_reputation_multiplier (pattern_processing.py
lines 167-190): base score, minus balance and gaming penalties, plus quality
bonus, clamped to [0.1, 2.0]. -/
def calculate_reputation_multiplier (r : MinerReputation) : ℚ :=
  let m₁ := r.base_reputation_score
  let m₂ :=
    if r.historical_pattern_ratio < 3/10 then
      m₁ - (1/2) * (3/10 - r.historical_pattern_ratio)
    else m₁
  let gaming_penalty :=
    min (8/10) ((r.duplicate_submission_count : ℚ) * (1/10) + r.gaming_penalty_score)
  let m₃ := m₂ - gaming_penalty
  let m₄ :=
    if r.verification_success_rate > 9/10 ∧ r.average_pattern_score > 7/10 ∧
        r.total_patterns_submitted > 50 then
      m₃ + 3/10
    else if r.verification_success_rate > 8/10 ∧ r.average_pattern_score > 6/10 then
      m₃ + 1/10
    else m₃
  max (1/10) (min 2 m₄)

/-- MinerReputation.update_with_pattern (pattern_processing.py lines 137-157).
The int(time.time()) reads are passed in as the parameter now. -/
def update_with_pattern (r : MinerReputation) (p : ClassifiedPattern) (now : Int) :
    MinerReputation :=
  let r₁ := { r with
    total_patterns_submitted := r.total_patterns_submitted + 1
    last_submission_timestamp := now }
  let r₂ :=
    if p.verification_status = "verified" then
      { r₁ with
        verified_patterns := r₁.verified_patterns + 1
        average_pattern_score :=
          update_running_average r₁.average_pattern_score (get_final_score p)
        average_complexity_score :=
          update_running_average r₁.average_complexity_score p.complexity_score }
    else
      { r₁ with rejected_patterns := r₁.rejected_patterns + 1 }
  let r₃ :=
    if r₂.total_patterns_submitted > 0 then
      { r₂ with verification_success_rate :=
        (r₂.verified_patterns : ℚ) / (r₂.total_patterns_submitted : ℚ) }
    else r₂
  let r₄ := { r₃ with reputation_multiplier := calculate_reputation_multiplier r₃ }
  { r₄ with reputation_update_timestamp := now }

/-- Sequence of update_with_pattern calls, each with its own pattern and
call time. -/
def apply_updates (r : MinerReputation) (calls : List (ClassifiedPattern × Int)) :
    MinerReputation :=
  calls.foldl (fun s c => update_with_pattern s c.1 c.2) r

/-- Modelled from the spec (section 4.8 ScoringEngine): the externally
reported final score as the spec describes it, namely the clamped weighted
sum multiplied by the reputation multiplier and re-clamped to [0, 1]. Used
only to compare the spec wording against get_final_score, the score the
code reports. -/
def final_score_spec (p : ClassifiedPattern) (rep : MinerReputation) : ℚ :=
  min 1 (max 0 (min 1 (max 0 (
    25/100 * p.confidence_score +
    30/100 * p.complexity_score +
    20/100 * p.recency_score +
    15/100 * p.volume_significance +
    10/100 * p.uniqueness_score)) * rep.reputation_multiplier))

/-- DiscoveryRecord: the value stored in FirstDiscoveryEnforcement's
discovery_registry dict (anti_gaming.py lines 290-293). -/
structure DiscoveryRecord where
  miner_hotkey : String
  timestamp : Int
deriving DecidableEq, Repr

/-- DiscoveryRegistrationResult from src/core/validator/anti_gaming.py. -/
structure DiscoveryRegistrationResult where
  is_first_discovery : Bool
  is_within_grace_period : Bool
  first_discoverer : String
  discovery_timestamp : Int
  credit_multiplier : ℚ
deriving DecidableEq, Repr

/-- FirstDiscoveryEnforcement grace_period: 5 minutes, in seconds. -/
def grace_period : Int := 300

/-- The discovery_registry dict: canonical pattern hash to record. -/
abbrev DiscoveryRegistry := List (String × DiscoveryRecord)

/-- Dict lookup in the discovery registry. -/
def lookup_registry : DiscoveryRegistry → String → Option DiscoveryRecord
  | [], _ => none
  | (k, v) :: rest, key => if k = key then some v else lookup_registry rest key

/-- FirstDiscoveryEnforcement.register_pattern_discovery (anti_gaming.py
lines 255-301), with the canonical pattern hash precomputed (the source
computes it from the pattern first, then only uses the hash) and the
int(time.time()) read passed in as current_time. Returns the result together
with the registry after the call. -/
def register_pattern_discovery (registry : DiscoveryRegistry)
    (pattern_hash miner_hotkey : String) (current_time : Int) :
    DiscoveryRegistrationResult × DiscoveryRegistry :=
  match lookup_registry registry pattern_hash with
  | some first_discovery =>
    let time_diff := current_time - first_discovery.timestamp
    if time_diff ≤ grace_period then
      (⟨false, true, first_discovery.miner_hotkey, first_discovery.timestamp, 1/2⟩,
       registry)
    else
      (⟨false, false, first_discovery.miner_hotkey, first_discovery.timestamp, 0⟩,
       registry)
  | none =>
    (⟨true, false, miner_hotkey, current_time, 1⟩,
     (pattern_hash, ⟨miner_hotkey, current_time⟩) :: registry)

/-- AdvancedAntiGamingSystem._calculate_overall_gaming_probability
(anti_gaming.py lines 495-501): mean of the confidence values present,
0 when the dict is empty. -/
def calculate_overall_gaming_probability (confidence_scores : List (String × ℚ)) : ℚ :=
  if confidence_scores = [] then 0
  else (confidence_scores.map Prod.snd).sum / (confidence_scores.length : ℚ)

/-- AdvancedAntiGamingSystem._determine_recommended_action (anti_gaming.py
lines 503-512). -/
def determine_recommended_action (gaming_flags : List String)
    (confidence_scores : List (String × ℚ)) : String :=
  let overall_prob := calculate_overall_gaming_probability confidence_scores
  if overall_prob > 8/10 ∨ "coordination_detected" ∈ gaming_flags then "reject"
  else if overall_prob > 5/10 then "flag_for_review"
  else "accept"

/-- The submission_rate_limits dict of RealTimeGamingPrevention: miner
hotkey to list of recorded submission timestamps. -/
abbrev RateLimitState := List (String × List Int)

/-- Dict lookup in the rate-limit tracker. -/
def lookup_tracker : RateLimitState → String → Option (List Int)
  | [], _ => none
  | (k, v) :: rest, key => if k = key then some v else lookup_tracker rest key

/-- Dict assignment in the rate-limit tracker: replaces the binding of an
existing key, otherwise adds one. -/
def set_tracker : RateLimitState → String → List Int → RateLimitState
  | [], key, v => [(key, v)]
  | (k, w) :: rest, key, v =>
    if k = key then (key, v) :: rest else (k, w) :: set_tracker rest key v

/-- The list a submitter's timestamps prune to at a given call (the dict
default is the empty list). -/
def tracked_times (st : RateLimitState) (miner_hotkey : String) : List Int :=
  (lookup_tracker st miner_hotkey).getD []

/-- RealTimeGamingPrevention.validate_submission_rate (anti_gaming.py lines
523-542), with the int(time.time()) read passed in as current_time. The
source first ensures the key is present (empty list default), prunes
timestamps older than one hour into a local list, rejects when ten or more
remain (without storing the pruned list), otherwise appends the current time
and stores the result. -/
def validate_submission_rate (st : RateLimitState) (miner_hotkey : String)
    (current_time : Int) : Bool × RateLimitState :=
  let st₁ :=
    match lookup_tracker st miner_hotkey with
    | none => set_tracker st miner_hotkey []
    | some _ => st
  let submissions := (lookup_tracker st₁ miner_hotkey).getD []
  let submissions := submissions.filter (fun t => current_time - t < 3600)
  if 10 ≤ submissions.length then (false, st₁)
  else (true, set_tracker st₁ miner_hotkey (submissions ++ [current_time]))

/-- Iterate validate_submission_rate over a list of call times, collecting
the returned booleans and threading the state. -/
def run_submission_calls (st : RateLimitState) (miner_hotkey : String) :
    List Int → List Bool × RateLimitState
  | [] => ([], st)
  | t :: ts =>
    let step := validate_submission_rate st miner_hotkey t
    let rest := run_submission_calls step.2 miner_hotkey ts
    (step.1 :: rest.1, rest.2)

/-- GraphSignature from src/core/validator/anti_gaming.py. The three count
fields are lengths and maxima of counts in the source, hence naturals. -/
structure GraphSignature where
  node_count : ℕ
  edge_count : ℕ
  max_degree : ℕ
  cycle_count : ℕ
  diameter : ℕ
  clustering_coefficient : ℚ
  degree_distribution : List ℕ
deriving DecidableEq, Repr

/-- GraphSignature.similarity_score (anti_gaming.py lines 39-48). Each of
the three normalized differences divides by a max of two counts; when that
max is zero Python raises ZeroDivisionError, modelled by the error branch.
Otherwise: one minus the average of the three differences, floored at 0. -/
def similarity_score (s other : GraphSignature) : Except Unit ℚ :=
  if max s.node_count other.node_count = 0 then .error () else
  if max s.edge_count other.edge_count = 0 then .error () else
  if max s.max_degree other.max_degree = 0 then .error () else
  let node_diff : ℚ :=
    |(s.node_count : ℚ) - (other.node_count : ℚ)| /
      ((max s.node_count other.node_count : ℕ) : ℚ)
  let edge_diff : ℚ :=
    |(s.edge_count : ℚ) - (other.edge_count : ℚ)| /
      ((max s.edge_count other.edge_count : ℕ) : ℚ)
  let degree_diff : ℚ :=
    |(s.max_degree : ℚ) - (other.max_degree : ℚ)| /
      ((max s.max_degree other.max_degree : ℕ) : ℚ)
  let similarity : ℚ := 1 - (node_diff + edge_diff + degree_diff) / 3
  .ok (max 0 similarity)

/-- Lowercasing of an address string, modelling str.lower character by
character. -/
def lower_str (s : String) : String := String.mk (s.data.map Char.toLower)

/-- A normalized edge tuple (from.lower(), to.lower(), str(amount),
timestamp) as built by PatternDeduplicationEngine._calculate_pattern_hash,
compared lexicographically as Python compares tuples. -/
abbrev NormTuple := Lex (String × Lex (String × Lex (Amount × Int)))

/-- Normalization of one edge for the exact-duplicate hash (anti_gaming.py
lines 134-141). -/
def normalize_edge (e : GraphEdge) : NormTuple :=
  toLex (lower_str e.from_address,
    toLex (lower_str e.to_address, toLex (e.amount, e.timestamp)))

/-- PatternDeduplicationEngine._calculate_pattern_hash (anti_gaming.py lines
131-146): normalize every edge, sort the tuple list, hash it. The SHA-256 of
the JSON dump is injective on the sorted tuple list, so the digest is
modelled by that list. -/
def calculate_pattern_hash (pattern : DetectedPattern) : List NormTuple :=
  List.insertionSort (· ≤ ·)
    (pattern.transaction_graph.edges.map normalize_edge)

/-- State of PatternDeduplicationEngine: the 0.85 similarity threshold, the
stored exact-hash dict and the stored signature dict. -/
structure DedupEngine where
  similarity_threshold : ℚ
  stored_pattern_hashes : List (List NormTuple × String)
  graph_signatures : List (String × GraphSignature)
deriving DecidableEq

/-- Dict lookup in the stored exact-hash map. -/
def lookup_hash : List (List NormTuple × String) → List NormTuple → Option String
  | [], _ => none
  | (k, v) :: rest, key => if k = key then some v else lookup_hash rest key

/-- PatternDeduplicationEngine._calculate_detailed_similarity (anti_gaming.py
lines 173-177): an acknowledged placeholder, constantly 0.0. -/
def calculate_detailed_similarity (_pattern1 : DetectedPattern)
    (_pattern2_id : String) : ℚ := 0

/-- Loop body of PatternDeduplicationEngine._find_similar_signatures: walk
the stored signature dict, keeping ids whose similarity to the new signature
exceeds 0.7; a ZeroDivisionError inside similarity_score aborts the call. -/
def find_similar_aux (signature : GraphSignature) :
    List (String × GraphSignature) → List String → Except Unit (List String)
  | [], similar_patterns => .ok similar_patterns
  | (pattern_id, stored_signature) :: rest, similar_patterns =>
    match similarity_score signature stored_signature with
    | .error e => .error e
    | .ok s =>
      find_similar_aux signature rest
        (if s > 7/10 then similar_patterns ++ [pattern_id] else similar_patterns)

/-- PatternDeduplicationEngine._find_similar_signatures (anti_gaming.py
lines 162-171). -/
def find_similar_signatures (engine : DedupEngine) (signature : GraphSignature) :
    Except Unit (List String) :=
  find_similar_aux signature engine.graph_signatures []

/-- Tier-3 loop of is_duplicate_pattern: return the first candidate whose
detailed similarity exceeds the threshold, else the novel result. -/
def scan_similar (new_pattern : DetectedPattern) (threshold : ℚ) :
    List String → Bool × List String
  | [] => (false, [])
  | pattern_id :: rest =>
    if calculate_detailed_similarity new_pattern pattern_id > threshold then
      (true, [pattern_id])
    else scan_similar new_pattern threshold rest

/-- PatternDeduplicationEngine.is_duplicate_pattern (anti_gaming.py lines
111-129). Tier 1 is the exact-hash dict lookup; tier 2 collects stored
signatures similar to the new pattern's graph signature; tier 3 compares
candidates in detail. The graph signature is a pure function of the pattern
(computed by _calculate_graph_signature from its graph metrics) and is
passed in as graph_signature; the theorems below hold for every value of it.
The method writes no engine field, which the returned post-state makes
explicit. -/
def is_duplicate_pattern (engine : DedupEngine) (new_pattern : DetectedPattern)
    (graph_signature : GraphSignature) :
    Except Unit (Bool × List String) × DedupEngine :=
  let pattern_hash := calculate_pattern_hash new_pattern
  match lookup_hash engine.stored_pattern_hashes pattern_hash with
  | some stored_id => (.ok (true, [stored_id]), engine)
  | none =>
    match find_similar_signatures engine graph_signature with
    | .error e => (.error e, engine)
    | .ok similar_patterns =>
      (.ok (scan_similar new_pattern engine.similarity_threshold similar_patterns),
       engine)

/-- Two edges that differ only in the letter-casing of their addresses:
lowercased addresses agree and every other hashed field is unchanged. -/
def case_variant (e₁ e₂ : GraphEdge) : Prop :=
  lower_str e₁.from_address = lower_str e₂.from_address ∧
  lower_str e₁.to_address = lower_str e₂.to_address ∧
  e₁.amount = e₂.amount ∧
  e₁.transaction_hash = e₂.transaction_hash ∧
  e₁.timestamp = e₂.timestamp

instance (e₁ e₂ : GraphEdge) : Decidable (case_variant e₁ e₂) := by
  unfold case_variant
  infer_instance

/-! Helper lemmas shared by the claim theorems. -/

theorem lookup_set_tracker_self (st : RateLimitState) (k : String) (v : List Int) :
    lookup_tracker (set_tracker st k v) k = some v := by
  induction st with
  | nil => simp [set_tracker, lookup_tracker]
  | cons p rest ih =>
    by_cases h : p.1 = k
    · simp [set_tracker, h, lookup_tracker]
    · simp [set_tracker, h, lookup_tracker, ih]

theorem tracked_times_set_self (st : RateLimitState) (k : String) (v : List Int) :
    tracked_times (set_tracker st k v) k = v := by
  simp [tracked_times, lookup_set_tracker_self]

theorem validate_eq (st : RateLimitState) (hk : String) (now : Int) :
    validate_submission_rate st hk now =
      (let st₁ :=
        match lookup_tracker st hk with
        | none => set_tracker st hk []
        | some _ => st
      let pruned := (tracked_times st hk).filter (fun t => now - t < 3600)
      if 10 ≤ pruned.length then (false, st₁)
      else (true, set_tracker st₁ hk (pruned ++ [now]))) := by
  unfold validate_submission_rate tracked_times
  cases h : lookup_tracker st hk with
  | none => simp [h, lookup_set_tracker_self]
  | some l => simp [h]

theorem validate_true (st : RateLimitState) (hk : String) (now : Int)
    (h : ((tracked_times st hk).filter (fun t => now - t < 3600)).length < 10) :
    (validate_submission_rate st hk now).1 = true ∧
    tracked_times (validate_submission_rate st hk now).2 hk =
      (tracked_times st hk).filter (fun t => now - t < 3600) ++ [now] := by
  rw [validate_eq]
  dsimp only
  rw [if_neg (by omega)]
  exact ⟨rfl, tracked_times_set_self _ _ _⟩

theorem validate_false (st : RateLimitState) (hk : String) (now : Int)
    (h : 10 ≤ ((tracked_times st hk).filter (fun t => now - t < 3600)).length) :
    (validate_submission_rate st hk now).1 = false := by
  rw [validate_eq]
  dsimp only
  rw [if_pos h]

theorem run_accepts (hk : String) : ∀ (ts : List Int) (st : RateLimitState),
    (∀ a ∈ tracked_times st hk ++ ts, ∀ b ∈ ts, b - a < 3600) →
    (tracked_times st hk ++ ts).length ≤ 10 →
    (run_submission_calls st hk ts).1 = List.replicate ts.length true ∧
    tracked_times (run_submission_calls st hk ts).2 hk = tracked_times st hk ++ ts := by
  intro ts
  induction ts with
  | nil => exact fun st _ _ => ⟨rfl, by simp [run_submission_calls]⟩
  | cons t ts ih =>
    intro st hwin hlen
    have hmem : ∀ a ∈ tracked_times st hk, t - a < 3600 := fun a ha =>
      hwin a (List.mem_append_left _ ha) t (List.mem_cons_self _ _)
    have hfilter : (tracked_times st hk).filter (fun x => t - x < 3600) =
        tracked_times st hk :=
      List.filter_eq_self.mpr (fun a ha => by simpa using hmem a ha)
    have hl : (tracked_times st hk).length < 10 := by
      rw [List.length_append, List.length_cons] at hlen
      omega
    have hv := validate_true st hk t (by rw [hfilter]; omega)
    rw [hfilter] at hv
    have hrun : run_submission_calls st hk (t :: ts) =
        ((validate_submission_rate st hk t).1 ::
          (run_submission_calls (validate_submission_rate st hk t).2 hk ts).1,
         (run_submission_calls (validate_submission_rate st hk t).2 hk ts).2) := rfl
    have hrest := ih (validate_submission_rate st hk t).2 ?_ ?_
    · refine ⟨?_, ?_⟩
      · rw [hrun, hv.1, hrest.1]
        simp [List.replicate_succ]
      · rw [hrun]
        dsimp only
        rw [hrest.2, hv.2, List.append_assoc, List.singleton_append]
    · intro a ha b hb
      rw [hv.2, List.append_assoc, List.singleton_append] at ha
      exact hwin a ha b (List.mem_cons_of_mem _ hb)
    · rw [hv.2, List.append_assoc, List.singleton_append]
      exact hlen

/-- Claim C5: from a fresh state, the rate limiter accepts ten submissions
whose timestamps lie within one rolling 3600-second window, rejects an
eleventh submission inside that window, and accepts again once 3600 seconds
have elapsed since every windowed timestamp, the old timestamps being pruned
from the stored window. -/
theorem submission_rate_limit (hk : String) (ts : List Int) (t₁₁ treset : Int)
    (hlen : ts.length = 10)
    (hwin : ∀ a ∈ ts, ∀ b ∈ ts, b - a < 3600)
    (h11 : ∀ a ∈ ts, t₁₁ - a < 3600)
    (hreset : ∀ a ∈ ts, 3600 ≤ treset - a) :
    (run_submission_calls [] hk ts).1 = List.replicate 10 true ∧
    (validate_submission_rate (run_submission_calls [] hk ts).2 hk t₁₁).1 = false ∧
    (validate_submission_rate (run_submission_calls [] hk ts).2 hk treset).1 = true ∧
    tracked_times
      (validate_submission_rate (run_submission_calls [] hk ts).2 hk treset).2 hk =
      [treset] := by
  have hnil : tracked_times [] hk = [] := rfl
  have hmain := run_accepts hk ts []
    (by rw [hnil, List.nil_append]; exact hwin)
    (by rw [hnil, List.nil_append, hlen])
  have hts : tracked_times (run_submission_calls [] hk ts).2 hk = ts := by
    rw [hmain.2, hnil, List.nil_append]
  refine ⟨by rw [hmain.1, hlen], ?_, ?_, ?_⟩
  · apply validate_false
    rw [hts, List.filter_eq_self.mpr (fun a ha => by simpa using h11 a ha), hlen]
  · have hempty : (tracked_times (run_submission_calls [] hk ts).2 hk).filter
        (fun t => treset - t < 3600) = [] := by
      rw [hts]
      exact List.filter_eq_nil_iff.mpr (fun a ha => by simpa using not_lt.mpr (hreset a ha))
    exact (validate_true _ hk treset (by rw [hempty]; decide)).1
  · have hempty : (tracked_times (run_submission_calls [] hk ts).2 hk).filter
        (fun t => treset - t < 3600) = [] := by
      rw [hts]
      exact List.filter_eq_nil_iff.mpr (fun a ha => by simpa using not_lt.mpr (hreset a ha))
    have := (validate_true _ hk treset (by rw [hempty]; decide)).2
    rw [hempty, List.nil_append] at this
    exact this

/-- Witness for claim C5: ten submissions at seconds 0 through 9, an
eleventh at second 10, and a retry at second 3609. -/
theorem submission_rate_limit_witness :
    ([0, 1, 2, 3, 4, 5, 6, 7, 8, 9] : List Int).length = 10 ∧
    (run_submission_calls [] "miner" [0, 1, 2, 3, 4, 5, 6, 7, 8, 9]).1 =
      List.replicate 10 true ∧
    (validate_submission_rate
      (run_submission_calls [] "miner" [0, 1, 2, 3, 4, 5, 6, 7, 8, 9]).2 "miner" 10).1 =
      false ∧
    (validate_submission_rate
      (run_submission_calls [] "miner" [0, 1, 2, 3, 4, 5, 6, 7, 8, 9]).2 "miner" 3609).1 =
      true ∧
    tracked_times
      (validate_submission_rate
        (run_submission_calls [] "miner" [0, 1, 2, 3, 4, 5, 6, 7, 8, 9]).2 "miner" 3609).2
      "miner" = [3609] := by
  have h := submission_rate_limit "miner" [0, 1, 2, 3, 4, 5, 6, 7, 8, 9] 10 3609
    (by decide) (by decide) (by decide) (by decide)
  exact ⟨by decide, h.1, h.2.1, h.2.2.1, h.2.2.2⟩

theorem calculate_reputation_multiplier_mem (r : MinerReputation) :
    1/10 ≤ calculate_reputation_multiplier r ∧ calculate_reputation_multiplier r ≤ 2 :=
  ⟨le_max_left _ _, max_le (by norm_num) (min_le_left _ _)⟩

theorem update_with_pattern_mult_mem (r : MinerReputation) (p : ClassifiedPattern)
    (now : Int) :
    1/10 ≤ (update_with_pattern r p now).reputation_multiplier ∧
      (update_with_pattern r p now).reputation_multiplier ≤ 2 :=
  calculate_reputation_multiplier_mem _

theorem apply_updates_mult_mem (calls : List (ClassifiedPattern × Int)) :
    ∀ r : MinerReputation, calls ≠ [] →
      1/10 ≤ (apply_updates r calls).reputation_multiplier ∧
        (apply_updates r calls).reputation_multiplier ≤ 2 := by
  induction calls with
  | nil => exact fun r h => absurd rfl h
  | cons c rest ih =>
    intro r _
    cases rest with
    | nil => exact update_with_pattern_mult_mem r c.1 c.2
    | cons d ds => exact ih _ (by simp)

/-- Claim C1: register_pattern_discovery gives full credit 1.0 to the first
submission of a canonical digest (inserting the submitter and time), credit
0.5 to a repeat submission at most 300 seconds after the first-seen time,
and credit 0.0 to any later repeat. -/
theorem register_discovery_credit (registry : DiscoveryRegistry)
    (h s : String) (t : Int) :
    (lookup_registry registry h = none →
      register_pattern_discovery registry h s t =
        (⟨true, false, s, t, 1⟩, (h, ⟨s, t⟩) :: registry)) ∧
    (∀ rec : DiscoveryRecord, lookup_registry registry h = some rec →
      t - rec.timestamp ≤ 300 →
      (register_pattern_discovery registry h s t).1.credit_multiplier = 1/2) ∧
    (∀ rec : DiscoveryRecord, lookup_registry registry h = some rec →
      t - rec.timestamp > 300 →
      (register_pattern_discovery registry h s t).1.credit_multiplier = 0) := by
  refine ⟨fun hnone => ?_, fun rec hsome hle => ?_, fun rec hsome hgt => ?_⟩
  · unfold register_pattern_discovery
    rw [hnone]
  · unfold register_pattern_discovery
    rw [hsome]
    simp only [grace_period]
    rw [if_pos hle]
  · unfold register_pattern_discovery
    rw [hsome]
    simp only [grace_period]
    rw [if_neg (not_le.mpr hgt)]

/-- Witness for claim C1 at concrete inputs: an empty registry, then a
repeat after 200 seconds, then a repeat after 400 seconds. -/
theorem register_discovery_credit_witness :
    register_pattern_discovery [] "d" "alice" 1000 =
      (⟨true, false, "alice", 1000, 1⟩, [("d", ⟨"alice", 1000⟩)]) ∧
    (register_pattern_discovery [("d", ⟨"alice", 1000⟩)] "d" "bob" 1200).1.credit_multiplier
      = 1/2 ∧
    (register_pattern_discovery [("d", ⟨"alice", 1000⟩)] "d" "bob" 1400).1.credit_multiplier
      = 0 :=
  ⟨(register_discovery_credit [] "d" "alice" 1000).1 rfl,
   (register_discovery_credit [("d", ⟨"alice", 1000⟩)] "d" "bob" 1200).2.1
     ⟨"alice", 1000⟩ rfl (by decide),
   (register_discovery_credit [("d", ⟨"alice", 1000⟩)] "d" "bob" 1400).2.2
     ⟨"alice", 1000⟩ rfl (by decide)⟩

/-- Claim C9: once a canonical digest has a record in the discovery
registry, any later register_pattern_discovery call for it, by any submitter
at any time, leaves the registry, and in particular the stored record,
unchanged: the first write wins. -/
theorem discovery_record_immutable (registry : DiscoveryRegistry)
    (h s : String) (t : Int) (rec : DiscoveryRecord)
    (hsome : lookup_registry registry h = some rec) :
    (register_pattern_discovery registry h s t).2 = registry ∧
    lookup_registry (register_pattern_discovery registry h s t).2 h = some rec := by
  unfold register_pattern_discovery
  simp only [hsome]
  split <;> exact ⟨rfl, hsome⟩

/-- Witness for claim C9 at a concrete registry and a concrete later call. -/
theorem discovery_record_immutable_witness :
    (register_pattern_discovery [("d", ⟨"alice", 5⟩)] "d" "bob" 99999).2 =
      [("d", ⟨"alice", 5⟩)] ∧
    lookup_registry (register_pattern_discovery [("d", ⟨"alice", 5⟩)] "d" "bob" 99999).2 "d"
      = some ⟨"alice", 5⟩ :=
  discovery_record_immutable [("d", ⟨"alice", 5⟩)] "d" "bob" 99999 ⟨"alice", 5⟩ rfl

/-- Claim C2 counterexample: a pattern whose five component scores are all
0.5 together with a submitter whose reputation multiplier is 1.1 (a value
inside the permitted [0.1, 2.0] range). The score the code reports is 0.5,
while the claimed formula with the multiplier applied and re-clamped gives
0.55, so the claim as stated is false on the code. -/
theorem final_score_no_multiplier_counterexample :
    get_final_score
        ⟨⟨⟨[], []⟩, "ethereum", "ETH", 0⟩, 1/2, 1/2, 1/2, 1/2, 1/2, "verified"⟩ = 1/2 ∧
    final_score_spec
        ⟨⟨⟨[], []⟩, "ethereum", "ETH", 0⟩, 1/2, 1/2, 1/2, 1/2, 1/2, "verified"⟩
        { miner_hotkey := "m", reputation_multiplier := 11/10 } = 11/20 ∧
    get_final_score
        ⟨⟨⟨[], []⟩, "ethereum", "ETH", 0⟩, 1/2, 1/2, 1/2, 1/2, 1/2, "verified"⟩ ≠
      final_score_spec
        ⟨⟨⟨[], []⟩, "ethereum", "ETH", 0⟩, 1/2, 1/2, 1/2, 1/2, 1/2, "verified"⟩
        { miner_hotkey := "m", reputation_multiplier := 11/10 } := by
  refine ⟨?_, ?_, ?_⟩ <;>
    norm_num [get_final_score, final_score_spec, min_def, max_def]

/-- Claim C2 as amended: the externally reported final score equals the
weighted sum 0.25·confidence + 0.30·complexity + 0.20·recency + 0.15·volume
+ 0.10·uniqueness clamped to [0, 1]; the submitter's reputation multiplier
is not applied to the reported score. -/
theorem get_final_score_formula (p : ClassifiedPattern) :
    get_final_score p =
      min 1 (max 0 (25/100 * p.confidence_score + 30/100 * p.complexity_score +
        20/100 * p.recency_score + 15/100 * p.volume_significance +
        10/100 * p.uniqueness_score)) := by
  unfold get_final_score
  rw [show p.confidence_score * (25/100) + p.complexity_score * (30/100) +
      p.recency_score * (20/100) + p.volume_significance * (15/100) +
      p.uniqueness_score * (10/100) =
      25/100 * p.confidence_score + 30/100 * p.complexity_score +
      20/100 * p.recency_score + 15/100 * p.volume_significance +
      10/100 * p.uniqueness_score from by ring]

/-- Claim C3: after every call in an arbitrary sequence of
update_with_pattern calls from an arbitrary initial reputation state, the
reputation multiplier lies in [0.1, 2.0]; and get_final_score of any
classified pattern, with arbitrary component scores, lies in [0, 1]. -/
theorem reputation_and_score_invariants :
    (∀ (r : MinerReputation) (calls : List (ClassifiedPattern × Int)) (i : ℕ),
      i < calls.length →
      1/10 ≤ (apply_updates r (calls.take (i+1))).reputation_multiplier ∧
        (apply_updates r (calls.take (i+1))).reputation_multiplier ≤ 2) ∧
    (∀ p : ClassifiedPattern, 0 ≤ get_final_score p ∧ get_final_score p ≤ 1) := by
  constructor
  · intro r calls i hi
    apply apply_updates_mult_mem
    apply List.ne_nil_of_length_pos
    rw [List.length_take]
    omega
  · intro p
    exact ⟨le_min (by norm_num) (le_max_left _ _), min_le_left _ _⟩

/-- Witness for claim C3: a single concrete update call on a fresh
reputation state, and a concrete pattern for the score bound. -/
theorem reputation_and_score_invariants_witness :
    (0 : ℕ) <
      ([(⟨⟨⟨[], []⟩, "ethereum", "ETH", 0⟩, 1, 1, 1, 1, 1, "verified"⟩, (7 : Int))] :
        List (ClassifiedPattern × Int)).length ∧
    (1/10 ≤ (apply_updates { miner_hotkey := "m" }
        (([(⟨⟨⟨[], []⟩, "ethereum", "ETH", 0⟩, 1, 1, 1, 1, 1, "verified"⟩, (7 : Int))] :
          List (ClassifiedPattern × Int)).take (0+1))).reputation_multiplier ∧
      (apply_updates { miner_hotkey := "m" }
        (([(⟨⟨⟨[], []⟩, "ethereum", "ETH", 0⟩, 1, 1, 1, 1, 1, "verified"⟩, (7 : Int))] :
          List (ClassifiedPattern × Int)).take (0+1))).reputation_multiplier ≤ 2) :=
  ⟨by decide,
   reputation_and_score_invariants.1 { miner_hotkey := "m" }
     [(⟨⟨⟨[], []⟩, "ethereum", "ETH", 0⟩, 1, 1, 1, 1, 1, "verified"⟩, (7 : Int))] 0
     (by decide)⟩

/-- Claim C6: the overall gaming probability is the arithmetic mean of the
per-flag confidences present (0 when none), and the recommended action is
reject exactly when the probability exceeds 0.8 or the coordination flag is
raised, flag_for_review when it is not a reject and the probability exceeds
0.5, and accept otherwise. -/
theorem gaming_probability_and_action :
    calculate_overall_gaming_probability [] = 0 ∧
    (∀ scores : List (String × ℚ), scores ≠ [] →
      calculate_overall_gaming_probability scores =
        ((scores.map Prod.snd).sum) / (scores.length : ℚ)) ∧
    (∀ (flags : List String) (scores : List (String × ℚ)),
      (determine_recommended_action flags scores = "reject" ↔
        (calculate_overall_gaming_probability scores > 8/10 ∨
          "coordination_detected" ∈ flags)) ∧
      (determine_recommended_action flags scores = "flag_for_review" ↔
        (¬(calculate_overall_gaming_probability scores > 8/10 ∨
            "coordination_detected" ∈ flags) ∧
          calculate_overall_gaming_probability scores > 5/10)) ∧
      (determine_recommended_action flags scores = "accept" ↔
        (¬(calculate_overall_gaming_probability scores > 8/10 ∨
            "coordination_detected" ∈ flags) ∧
          ¬calculate_overall_gaming_probability scores > 5/10))) := by
  refine ⟨rfl, fun scores h => ?_, fun flags scores => ?_⟩
  · rw [calculate_overall_gaming_probability, if_neg h]
  · unfold determine_recommended_action
    dsimp only
    split_ifs with h₁ h₂ <;> refine ⟨?_, ?_, ?_⟩ <;> simp_all

/-- Witness for claim C6: a one-entry confidence map and a concrete
flag/confidence configuration. -/
theorem gaming_probability_and_action_witness :
    ([("address_age", (1 : ℚ))] : List (String × ℚ)) ≠ [] ∧
    calculate_overall_gaming_probability [("address_age", (1 : ℚ))] =
      (([("address_age", (1 : ℚ))].map Prod.snd).sum) /
        (([("address_age", (1 : ℚ))] : List (String × ℚ)).length : ℚ) ∧
    (determine_recommended_action ["coordination_detected"] [] = "reject" ↔
      (calculate_overall_gaming_probability [] > 8/10 ∨
        "coordination_detected" ∈ ["coordination_detected"])) :=
  ⟨by decide,
   gaming_probability_and_action.2.1 [("address_age", (1 : ℚ))] (by decide),
   (gaming_probability_and_action.2.2 ["coordination_detected"] []).1⟩

/-- Claim C8: similarity_score is symmetric in its two signatures, on the
error branches as well as on the numeric result. -/
theorem similarity_score_symmetric (a b : GraphSignature) :
    similarity_score a b = similarity_score b a := by
  unfold similarity_score
  rw [max_comm a.node_count b.node_count, max_comm a.edge_count b.edge_count,
    max_comm a.max_degree b.max_degree,
    abs_sub_comm ((a.node_count : ℚ)) ((b.node_count : ℚ)),
    abs_sub_comm ((a.edge_count : ℚ)) ((b.edge_count : ℚ)),
    abs_sub_comm ((a.max_degree : ℚ)) ((b.max_degree : ℚ))]

/-- Claim C10: similarity_score fails with a division by zero whenever the
two node counts, the two edge counts, or the two maximum degrees are both
zero; under the precondition that all three maxima are positive it returns
a value in [0, 1]. -/
theorem similarity_score_partiality :
    (∀ a b : GraphSignature,
      ((a.node_count = 0 ∧ b.node_count = 0) ∨
        (a.edge_count = 0 ∧ b.edge_count = 0) ∨
        (a.max_degree = 0 ∧ b.max_degree = 0)) →
      similarity_score a b = .error ()) ∧
    (∀ a b : GraphSignature,
      0 < max a.node_count b.node_count →
      0 < max a.edge_count b.edge_count →
      0 < max a.max_degree b.max_degree →
      ∃ q : ℚ, similarity_score a b = .ok q ∧ 0 ≤ q ∧ q ≤ 1) := by
  constructor
  · intro a b h
    unfold similarity_score
    split_ifs with h₁ h₂ h₃
    · rfl
    · rfl
    · rfl
    · exfalso
      rcases h with ⟨ha, hb⟩ | ⟨ha, hb⟩ | ⟨ha, hb⟩
      · exact h₁ (by simp [ha, hb])
      · exact h₂ (by simp [ha, hb])
      · exact h₃ (by simp [ha, hb])
  · intro a b h₁ h₂ h₃
    unfold similarity_score
    rw [if_neg (Nat.pos_iff_ne_zero.mp h₁), if_neg (Nat.pos_iff_ne_zero.mp h₂),
      if_neg (Nat.pos_iff_ne_zero.mp h₃)]
    refine ⟨_, rfl, le_max_left _ _, ?_⟩
    exact max_le zero_le_one (sub_le_self 1 (by positivity))

/-- Witness for claim C10: the all-zero signature pair hits the division by
zero, and a signature pair with positive counts gets a bounded score. -/
theorem similarity_score_partiality_witness :
    ((⟨0, 0, 0, 0, 0, 0, []⟩ : GraphSignature).node_count = 0 ∧
      (⟨0, 0, 0, 0, 0, 0, []⟩ : GraphSignature).node_count = 0) ∧
    similarity_score ⟨0, 0, 0, 0, 0, 0, []⟩ ⟨0, 0, 0, 0, 0, 0, []⟩ = .error () ∧
    (0 < max (⟨3, 2, 2, 1, 3, 1/2, [0, 2, 2]⟩ : GraphSignature).node_count
        (⟨2, 2, 2, 1, 2, 1/2, [0, 0, 4]⟩ : GraphSignature).node_count) ∧
    (∃ q : ℚ,
      similarity_score ⟨3, 2, 2, 1, 3, 1/2, [0, 2, 2]⟩ ⟨2, 2, 2, 1, 2, 1/2, [0, 0, 4]⟩ =
        .ok q ∧ 0 ≤ q ∧ q ≤ 1) :=
  ⟨⟨rfl, rfl⟩,
   similarity_score_partiality.1 _ _ (Or.inl ⟨rfl, rfl⟩),
   by decide,
   similarity_score_partiality.2 ⟨3, 2, 2, 1, 3, 1/2, [0, 2, 2]⟩
     ⟨2, 2, 2, 1, 2, 1/2, [0, 0, 4]⟩ (by decide) (by decide) (by decide)⟩

theorem normalize_map_of_case_variants {es es₂ : List GraphEdge}
    (hcase : List.Forall₂ case_variant es es₂) :
    es₂.map normalize_edge = es.map normalize_edge := by
  induction hcase with
  | nil => rfl
  | cons h _ ih =>
    obtain ⟨h₁, h₂, h₃, _, h₅⟩ := h
    simp only [List.map_cons, ih, normalize_edge, h₁, h₂, h₃, h₅]

/-- Claim C7: the exact-duplicate digest of a graph is unchanged when the
letter-casing of addresses in its edges is altered and unchanged under any
permutation of the edge list: the normalized, sorted hash input, which
determines the SHA-256 digest, is identical. -/
theorem exact_digest_invariance (nodes : List GraphNode)
    (blockchain asset : String) (dt : Int) (es es₂ es' : List GraphEdge)
    (hcase : List.Forall₂ case_variant es es₂)
    (hperm : es'.Perm es₂) :
    calculate_pattern_hash ⟨⟨nodes, es'⟩, blockchain, asset, dt⟩ =
      calculate_pattern_hash ⟨⟨nodes, es⟩, blockchain, asset, dt⟩ := by
  unfold calculate_pattern_hash
  have hperm₂ : (es'.map normalize_edge).Perm (es.map normalize_edge) := by
    rw [← normalize_map_of_case_variants hcase]
    exact hperm.map _
  exact List.eq_of_perm_of_sorted
    ((List.perm_insertionSort _ _).trans
      (hperm₂.trans (List.perm_insertionSort _ _).symm))
    (List.sorted_insertionSort _ _) (List.sorted_insertionSort _ _)

/-- Witness for claim C7: a two-edge graph, its address-uppercased variant,
and the swapped edge order of the latter hash identically. -/
theorem exact_digest_invariance_witness :
    List.Forall₂ case_variant
      [⟨"0xAbC", "0xDeF", 5, "tx1", 100⟩, ⟨"0xGhI", "0xJkL", 7, "tx2", 50⟩]
      [⟨"0xABC", "0xDEF", 5, "tx1", 100⟩, ⟨"0xGHI", "0xJKL", 7, "tx2", 50⟩] ∧
    ([⟨"0xGHI", "0xJKL", 7, "tx2", 50⟩, ⟨"0xABC", "0xDEF", 5, "tx1", 100⟩] :
      List GraphEdge).Perm
      [⟨"0xABC", "0xDEF", 5, "tx1", 100⟩, ⟨"0xGHI", "0xJKL", 7, "tx2", 50⟩] ∧
    calculate_pattern_hash
      ⟨⟨[], [⟨"0xGHI", "0xJKL", 7, "tx2", 50⟩, ⟨"0xABC", "0xDEF", 5, "tx1", 100⟩]⟩,
        "ethereum", "ETH", 0⟩ =
      calculate_pattern_hash
        ⟨⟨[], [⟨"0xAbC", "0xDeF", 5, "tx1", 100⟩, ⟨"0xGhI", "0xJkL", 7, "tx2", 50⟩]⟩,
          "ethereum", "ETH", 0⟩ :=
  ⟨List.Forall₂.cons (by decide) (List.Forall₂.cons (by decide) List.Forall₂.nil),
   List.Perm.swap _ _ _,
   exact_digest_invariance [] "ethereum" "ETH" 0
     [⟨"0xAbC", "0xDeF", 5, "tx1", 100⟩, ⟨"0xGhI", "0xJkL", 7, "tx2", 50⟩]
     [⟨"0xABC", "0xDEF", 5, "tx1", 100⟩, ⟨"0xGHI", "0xJKL", 7, "tx2", 50⟩]
     [⟨"0xGHI", "0xJKL", 7, "tx2", 50⟩, ⟨"0xABC", "0xDEF", 5, "tx1", 100⟩]
     (List.Forall₂.cons (by decide) (List.Forall₂.cons (by decide) List.Forall₂.nil))
     (List.Perm.swap _ _ _)⟩

/-- Claim C4 counterexample: from an engine with an empty corpus, checking
a concrete one-edge pattern returns Novel and, contrary to the claim,
inserts nothing: the engine state after the call is unchanged, and an
immediately following check of the identical pattern returns Novel again
instead of Duplicate. -/
theorem dedup_no_insertion_counterexample :
    (is_duplicate_pattern ⟨85/100, [], []⟩
      ⟨⟨[⟨"a", "eoa"⟩, ⟨"b", "eoa"⟩], [⟨"a", "b", 1, "tx", 0⟩]⟩, "ethereum", "ETH", 0⟩
      ⟨2, 1, 1, 0, 2, 1/2, [0, 2]⟩).1 = .ok (false, []) ∧
    (is_duplicate_pattern ⟨85/100, [], []⟩
      ⟨⟨[⟨"a", "eoa"⟩, ⟨"b", "eoa"⟩], [⟨"a", "b", 1, "tx", 0⟩]⟩, "ethereum", "ETH", 0⟩
      ⟨2, 1, 1, 0, 2, 1/2, [0, 2]⟩).2 = ⟨85/100, [], []⟩ ∧
    (is_duplicate_pattern
      (is_duplicate_pattern ⟨85/100, [], []⟩
        ⟨⟨[⟨"a", "eoa"⟩, ⟨"b", "eoa"⟩], [⟨"a", "b", 1, "tx", 0⟩]⟩, "ethereum", "ETH", 0⟩
        ⟨2, 1, 1, 0, 2, 1/2, [0, 2]⟩).2
      ⟨⟨[⟨"a", "eoa"⟩, ⟨"b", "eoa"⟩], [⟨"a", "b", 1, "tx", 0⟩]⟩, "ethereum", "ETH", 0⟩
      ⟨2, 1, 1, 0, 2, 1/2, [0, 2]⟩).1 = .ok (false, []) :=
  ⟨rfl, rfl, rfl⟩

/-- Claim C4 as amended: if a pattern's exact digest is already stored in
the corpus, is_duplicate_pattern returns Duplicate with the stored pattern
id; but on a Novel result the engine inserts nothing: the corpus is
unchanged by every call, so an immediately following check of an identical
pattern returns Novel again. -/
theorem dedup_exact_hit_and_no_insertion :
    (∀ (e : DedupEngine) (p : DetectedPattern) (sig : GraphSignature) (pid : String),
      lookup_hash e.stored_pattern_hashes (calculate_pattern_hash p) = some pid →
      is_duplicate_pattern e p sig = (.ok (true, [pid]), e)) ∧
    (∀ (e : DedupEngine) (p : DetectedPattern) (sig : GraphSignature),
      (is_duplicate_pattern e p sig).2 = e) ∧
    (∀ (e : DedupEngine) (p : DetectedPattern) (sig : GraphSignature) (r : Bool × List String),
      (is_duplicate_pattern e p sig).1 = .ok r →
      (is_duplicate_pattern (is_duplicate_pattern e p sig).2 p sig).1 = .ok r) := by
  have hframe : ∀ (e : DedupEngine) (p : DetectedPattern) (sig : GraphSignature),
      (is_duplicate_pattern e p sig).2 = e := by
    intro e p sig
    unfold is_duplicate_pattern
    cases h : lookup_hash e.stored_pattern_hashes (calculate_pattern_hash p) with
    | some pid => simp only [h]
    | none =>
      simp only [h]
      cases hf : find_similar_signatures e sig with
      | error err => simp only [hf]
      | ok l => simp only [hf]
  refine ⟨?_, hframe, ?_⟩
  · intro e p sig pid h
    unfold is_duplicate_pattern
    simp only [h]
  · intro e p sig r h
    rw [hframe, h]

theorem lookup_hash_cons_self (rest : List (List NormTuple × String))
    (k : List NormTuple) (pid : String) :
    lookup_hash ((k, pid) :: rest) k = some pid := by
  simp [lookup_hash]

/-- Witness for claim C4 (amended) at a concrete stored digest and a
concrete repeated Novel check. -/
theorem dedup_exact_hit_and_no_insertion_witness :
    lookup_hash
      (⟨(85 : ℚ)/100,
        [(calculate_pattern_hash
            ⟨⟨[⟨"a", "eoa"⟩], [⟨"a", "b", 1, "tx", 0⟩]⟩, "ethereum", "ETH", 0⟩, "pat1")],
        []⟩ : DedupEngine).stored_pattern_hashes
      (calculate_pattern_hash
        ⟨⟨[⟨"a", "eoa"⟩], [⟨"a", "b", 1, "tx", 0⟩]⟩, "ethereum", "ETH", 0⟩) =
      some "pat1" ∧
    is_duplicate_pattern
      ⟨85/100,
        [(calculate_pattern_hash
            ⟨⟨[⟨"a", "eoa"⟩], [⟨"a", "b", 1, "tx", 0⟩]⟩, "ethereum", "ETH", 0⟩, "pat1")],
        []⟩
      ⟨⟨[⟨"a", "eoa"⟩], [⟨"a", "b", 1, "tx", 0⟩]⟩, "ethereum", "ETH", 0⟩
      ⟨2, 1, 1, 0, 2, 1/2, [0, 2]⟩ =
      (.ok (true, ["pat1"]),
       ⟨85/100,
        [(calculate_pattern_hash
            ⟨⟨[⟨"a", "eoa"⟩], [⟨"a", "b", 1, "tx", 0⟩]⟩, "ethereum", "ETH", 0⟩, "pat1")],
        []⟩) :=
  ⟨lookup_hash_cons_self _ _ _,
   dedup_exact_hit_and_no_insertion.1 _
     ⟨⟨[⟨"a", "eoa"⟩], [⟨"a", "b", 1, "tx", 0⟩]⟩, "ethereum", "ETH", 0⟩
     ⟨2, 1, 1, 0, 2, 1/2, [0, 2]⟩ "pat1" (lookup_hash_cons_self _ _ _)⟩
